import Mathlib

/-!
Shallow embedding of `bika/lims/catalog.py` and
`bika/lims/jsonapi/fieldmanagers.py` (bika.lims), together with proofs
about the field-manager adapters and the setup catalog.

Framework pieces that are not part of this repository's two source files
(the `bika.lims.jsonapi.api` helpers, the `DateTime` constructor, Zope's
`ZopeFindAndApply`, base64 decoding) are modelled from the spec; every
such definition carries a doc comment starting `Modelled from the spec:`.
-/

set_option autoImplicit false
set_option linter.unusedVariables false

namespace Bika

/-- Python exception classes that the embedded code can raise. -/
inductive PyErr
  | nameError
  | typeError
  | valueError
  | unauthorized
  | syntaxError
  deriving DecidableEq, Repr

/-- Python return values of the `set` methods: `None`, `True` or `False`. -/
inductive PyRet
  | none
  | bool (b : Bool)
  deriving DecidableEq, Repr

/-- Modelled from the spec: a persistent content object of the host
framework.  It carries the framework-assigned UID, its physical path, its
portal type, its title and the remaining indexable attributes. -/
structure Obj where
  uid : String
  path : String
  portal_type : String
  title : String
  attrs : List (String × String)
  deriving DecidableEq, Repr

/-- Python values that the field mutators can store on an instance:
strings, DateTime objects (modelled as timestamps), a list of resolved
references, a single resolved reference, or anything else. -/
inductive PyV
  | str (s : String)
  | dt (d : Nat)
  | reflist (l : List (Option Obj))
  | refone (r : Option Obj)
  | other
  deriving DecidableEq, Repr

/-- Modelled from the spec: Python's `str()` applied to a value (used by
the `id` coercion and by `FileFieldManager.set`). -/
def pyStr : PyV → String
  | .str s => s
  | .dt d => toString d
  | .reflist _ => "<reflist>"
  | .refone _ => "<ref>"
  | .other => "<object>"

/-- Modelled from the spec: the environment supplied by the host
framework — the object database backing the catalog, the `DateTime`
string parser (`none` means the string raises `SyntaxError`), and the
base64 decoder used by `str.decode("base64")`. -/
structure Env where
  db : List Obj
  parseDT : String → Option Nat
  b64decode : String → String

/-- The adapted Archetypes field, with the outcome of the framework
permission checks for the fixed instance folded in:
`read_perm` / `write_perm` are the results of
`field.checkPermission("read"/"write", instance)`, `writeable` is
`field.writeable(instance)`; `multiValued` and `allowed_types` are the
field properties read by `ReferenceFieldManager.__init__`. -/
structure Field where
  name : String
  read_perm : Bool
  write_perm : Bool
  writeable : Bool
  multiValued : Bool
  allowed_types : List String
  deriving DecidableEq, Repr

/-- The state of the adapted content instance restricted to the managed
field: the stored value, and the `filename` keyword the mutator received
(meaningful for file fields, `none` elsewhere). -/
structure Inst where
  stored : PyV
  storedFilename : Option String
  deriving DecidableEq, Repr

/-- The keyword arguments (`**kw`) passed to a field manager's `set`;
`none` models an absent key. -/
structure KW where
  filename : Option String := Option.none
  id : Option String := Option.none
  title : Option String := Option.none
  deriving DecidableEq, Repr

/-- `if self.name == "id": value = str(value)` in `ATFieldManager._set`. -/
def coerceId (name : String) (v : PyV) : PyV :=
  if name = "id" then .str (pyStr v) else v

namespace ATFieldManager

/-- `ATFieldManager._set`: check the write permission, check
writeability, coerce `id` values to strings, then apply the field
mutator (`mapply(mutator, value, **kw)`, which stores the value and the
`filename` keyword on the instance) and return `True`.  Exceptions leave
the instance unchanged. -/
def _set (f : Field) (i : Inst) (value : PyV) (kw : KW) :
    Except PyErr PyRet × Inst :=
  if !f.write_perm then (.error .unauthorized, i)
  else if !f.writeable then (.error .unauthorized, i)
  else
    let value := coerceId f.name value
    (.ok (.bool true), { stored := value, storedFilename := kw.filename })

/-- `ATFieldManager._get`: check the read permission, then return
`self.field.get(instance)` (the stored value). -/
def _get (f : Field) (i : Inst) : Except PyErr PyV :=
  if !f.read_perm then .error .unauthorized
  else .ok i.stored

/-- `ATFieldManager.set` just delegates to `_set`. -/
def set (f : Field) (i : Inst) (value : PyV) (kw : KW) :
    Except PyErr PyRet × Inst :=
  _set f i value kw

/-- `ATFieldManager.get` just delegates to `_get`. -/
def get (f : Field) (i : Inst) : Except PyErr PyV :=
  _get f i

end ATFieldManager

/-- Modelled from the spec: `DateTime(value)` — the framework `DateTime`
constructor.  A string is parsed by the environment's parser and raises
`SyntaxError` when unparseable; a `DateTime` passes through; any other
value raises a non-`SyntaxError` error (modelled as `typeError`). -/
def pyDateTime (env : Env) : PyV → Except PyErr Nat
  | .str s =>
    match env.parseDT s with
    | Option.some d => .ok d
    | Option.none => .error .syntaxError
  | .dt d => .ok d
  | _ => .error .typeError

namespace DateTimeFieldManager

/-- `DateTimeFieldManager.set`: convert the value with `DateTime(value)`;
on `SyntaxError` log a warning and return `False`; otherwise call the
inherited `_set` with the converted object and fall off the end of the
method (returning `None`). -/
def set (env : Env) (f : Field) (i : Inst) (value : PyV) (kw : KW) :
    Except PyErr PyRet × Inst :=
  match pyDateTime env value with
  | .error .syntaxError => (.ok (.bool false), i)
  | .error e => (.error e, i)
  | .ok d =>
    match ATFieldManager._set f i (.dt d) kw with
    | (.error e, i) => (.error e, i)
    | (.ok _, i) => (.ok .none, i)

end DateTimeFieldManager

/-- Python's truthiness-based `a or b` on two optional strings:
`None` and the empty string are falsy. -/
def pyOr (a b : Option String) : Option String :=
  match a with
  | Option.none => b
  | Option.some s => if s = "" then b else Option.some s

namespace FileFieldManager

/-- `FileFieldManager.set`: always base64-decode `str(value)`; when no
`filename` keyword was supplied, default it to `kw.get("id") or
kw.get("title")`; then call the inherited `_set` and fall off the end of
the method (returning `None`). -/
def set (env : Env) (f : Field) (i : Inst) (value : PyV) (kw : KW) :
    Except PyErr PyRet × Inst :=
  let value := PyV.str (env.b64decode (pyStr value))
  let kw :=
    if kw.filename.isSome then kw
    else { kw with filename := pyOr kw.id kw.title }
  match ATFieldManager._set f i value kw with
  | (.error e, i) => (.error e, i)
  | (.ok _, i) => (.ok .none, i)

end FileFieldManager

/-!
## Reference fields

The values handed to `ReferenceFieldManager.set` are classified by the
`bika.lims.jsonapi.api` helpers `is_uid`, `is_at_content`, `is_path` and
the underscore helpers `is_dict`, `is_list`.  Those helpers are not part
of the two source files, so the classification is modelled from the
spec: the constructors of `Item` / `Value` record which (mutually
exclusive) shape a Python value has.  `Item.str` is a plain string that
is neither a UID nor a physical path; `Item.other` is any value matching
none of the recognized shapes (a number, `None`, a nested list, ...).
-/

/-- A member of a list value passed to `ReferenceFieldManager.set`. -/
inductive Item
  | uid (u : String)
  | obj (o : Obj)
  | path (p : String)
  | dict (q : List (String × String))
  | str (s : String)
  | other
  deriving DecidableEq, Repr

/-- A value passed to `ReferenceFieldManager.set`: a UID string, an AT
content object, a dictionary (catalog query), a list of items, a
physical path string, a plain string, or anything else. -/
inductive Value
  | uid (u : String)
  | obj (o : Obj)
  | dict (q : List (String × String))
  | list (items : List Item)
  | path (p : String)
  | str (s : String)
  | other
  deriving DecidableEq, Repr

namespace api

/-- Modelled from the spec: `api.get_object_by_uid` looks the UID up in
the framework's UID catalog, returning `None` when no object has it. -/
def get_object_by_uid (env : Env) (u : String) : Option Obj :=
  env.db.find? (fun o => o.uid = u)

/-- Modelled from the spec: `api.get_object_by_path` traverses the
physical path, returning `None` when nothing lives there. -/
def get_object_by_path (env : Env) (p : String) : Option Obj :=
  env.db.find? (fun o => o.path = p)

/-- Modelled from the spec: one catalog-query criterion matches an
object when the queried index equals the requested value; `title` and
`portal_type` are indexed alongside the other attributes. -/
def queryMatch (o : Obj) (kv : String × String) : Bool :=
  if kv.1 = "title" then o.title = kv.2
  else if kv.1 = "portal_type" then o.portal_type = kv.2
  else o.attrs.lookup kv.1 = Option.some kv.2

/-- Modelled from the spec: `api.search(portal_type=allowed, **query)` —
a catalog query returning (brains of) the objects whose portal type is
one of the allowed types and which satisfy every criterion of the
query.  `map(api.get_object, results)` is the identity on this model. -/
def search (env : Env) (allowed : List String) (q : List (String × String)) :
    List Obj :=
  env.db.filter (fun o => allowed.contains o.portal_type && q.all (queryMatch o))

end api

/-- The Python variable `ref` of `ReferenceFieldManager.set`: every
branch but the physical-path one leaves it a list; the path branch
overwrites it with the single object found at the path. -/
inductive RefVal
  | lst (l : List (Option Obj))
  | single (r : Option Obj)
  deriving DecidableEq, Repr

/-- The value `_set` receives for a reference field. -/
def RefVal.toPyV : RefVal → PyV
  | .lst l => .reflist l
  | .single r => .refone r

/-- `len(ref)`: defined for the list shape; a single content object (or
`None`) has no `__len__`, so Python raises `TypeError`. -/
def refLen : RefVal → Except PyErr Nat
  | .lst l => .ok l.length
  | .single _ => .error .typeError

namespace ReferenceFieldManager

/-- The body of the `for item in value` loop of
`ReferenceFieldManager.set`: each item is tried as a UID, then as a
content object, then as a physical path, then as a dictionary (catalog
query), then as a plain string (catalog query for the title against the
allowed types); anything else contributes nothing. -/
def resolveItem (env : Env) (allowed : List String) : Item → List (Option Obj)
  | .uid u => [api.get_object_by_uid env u]
  | .obj o => [Option.some o]
  | .path p => [api.get_object_by_path env p]
  | .dict q => (api.search env allowed q).map Option.some
  | .str s => (api.search env allowed [("title", s)]).map Option.some
  | .other => []

/-- Lines 171-225 of `ReferenceFieldManager.set`: starting from
`ref = []`, the chain of `if` statements on the (mutually exclusive)
shape of `value` — UID, content object, dictionary-as-query, list of
items, physical path.  A value matching no shape leaves `ref = []`. -/
def resolve (env : Env) (allowed : List String) : Value → RefVal
  | .uid u => .lst [api.get_object_by_uid env u]
  | .obj o => .lst [Option.some o]
  | .dict q => .lst ((api.search env allowed q).map Option.some)
  | .list items =>
    .lst (items.foldl (fun acc it => acc ++ resolveItem env allowed it) [])
  | .path p => .single (api.get_object_by_path env p)
  | .str _ => .lst []
  | .other => .lst []

/-- `ReferenceFieldManager.set`: resolve the value into `ref`, raise
`ValueError` for a single-valued field receiving more than one
reference (`len(ref)` itself raises `TypeError` on the single-object
shape), then delegate to the inherited `_set`. -/
def set (env : Env) (f : Field) (i : Inst) (value : Value) (kw : KW) :
    Except PyErr PyRet × Inst :=
  let ref := resolve env f.allowed_types value
  if !f.multiValued then
    match refLen ref with
    | .error e => (.error e, i)
    | .ok n =>
      if n > 1 then (.error .valueError, i)
      else ATFieldManager._set f i ref.toPyV kw
  else ATFieldManager._set f i ref.toPyV kw

end ReferenceFieldManager

/-- The five top-level resolution strategies of
`ReferenceFieldManager.set`. -/
inductive Strategy
  | uid
  | obj
  | dictQ
  | listV
  | path
  deriving DecidableEq, Repr

/-- The guard of each top-level strategy, i.e. the conditions
`api.is_uid(value)`, `api.is_at_content(value)`, `_.is_dict(value)`,
`_.is_list(value)`, `api.is_path(value)` of the source. -/
def accepts : Strategy → Value → Bool
  | .uid, .uid _ => true
  | .obj, .obj _ => true
  | .dictQ, .dict _ => true
  | .listV, .list _ => true
  | .path, .path _ => true
  | _, _ => false

/-- All five strategies, in source order. -/
def allStrategies : List Strategy :=
  [.uid, .obj, .dictQ, .listV, .path]

/-- The strategies whose guard fires on a given value. -/
def strategiesAccepting (v : Value) : List Strategy :=
  allStrategies.filter (fun s => accepts s v)

/-- What each single strategy, on its own, computes for a value its
guard fires on (junk `.lst []` on a value it does not accept). -/
def strategyResult (env : Env) (allowed : List String) :
    Strategy → Value → RefVal
  | .uid, .uid u => .lst [api.get_object_by_uid env u]
  | .obj, .obj o => .lst [Option.some o]
  | .dictQ, .dict q => .lst ((api.search env allowed q).map Option.some)
  | .listV, .list items =>
    .lst (items.flatMap (ReferenceFieldManager.resolveItem env allowed))
  | .path, .path p => .single (api.get_object_by_path env p)
  | _, _ => .lst []

/-!
## `bika/lims/catalog.py`

`getCatalog` is a module-level function whose parameters are `instance`
and `field`, yet whose body reads `self`.  We embed Python's name
resolution for that module: a name is looked up in the function's local
scope, then the module's global scope, then the builtins; a miss raises
`NameError`.  The body's expressions are evaluated left to right, so the
first lookup performed by the `if` condition is `hasattr`, the second is
`self`.
-/

/-- The local names of `getCatalog`: its two parameters. -/
def getCatalogLocals : List String :=
  ["instance", "field"]

/-- The global names of the `bika/lims/catalog.py` module: its imports
and its two top-level definitions. -/
def catalogGlobals : List String :=
  ["ClassSecurityInfo", "aq_inner", "aq_parent", "InitializeClass",
   "ManagePortal", "getToolByName", "CatalogTool", "base_hasattr",
   "safe_callable", "ZCatalog", "IBikaSetupCatalog", "getUtility",
   "Interface", "implements", "getCatalog", "BikaSetupCatalog"]

/-- The Python builtins read by the module. -/
def pyBuiltins : List String :=
  ["hasattr", "str", "len", "isinstance", "map"]

/-- Python name resolution in the body of `getCatalog`: local scope,
then module globals, then builtins; otherwise `NameError`. -/
def resolveName (n : String) : Except PyErr Unit :=
  if getCatalogLocals.contains n || catalogGlobals.contains n ||
      pyBuiltins.contains n then .ok ()
  else .error .nameError

/-- Modelled from the spec: what the unreachable remainder of
`getCatalog` computes — the `workflow_skiplist` short-circuit and the
`archetype_tool` catalog-map lookup — as an oracle of the framework
state, since every framework object it touches lives outside the two
source files. -/
structure CatalogEnv where
  autoIndexOff : Bool
  inSkiplist : Bool
  catalogFor : String → String

/-- `getCatalog(instance, field='UID')`: the condition of the first `if`
evaluates `hasattr(self, 'AutoIndex', False)`; Python resolves the name
`hasattr` (a builtin), then the name `self` — which is neither a local,
nor a module global, nor a builtin, so a `NameError` is raised before
anything else runs.  The rest of the body is embedded after those two
lookups and is unreachable. -/
def getCatalog (cenv : CatalogEnv) (portal_type : String)
    (field : String := "UID") : Except PyErr (Option String) := do
  _ ← resolveName "hasattr"
  _ ← resolveName "self"
  if cenv.autoIndexOff || cenv.inSkiplist then
    return Option.none
  else
    return Option.some (cenv.catalogFor portal_type)

/-!
## `BikaSetupCatalog.clearFindAndRebuild`

The catalog state is the list of indexed objects plus a trace of the
operations performed on it, so that the order of clearing and
reindexing is observable.
-/

/-- A Zope object reachable under the portal, as seen by
`ZopeFindAndApply`: its meta_type is what the `obj_metatypes` filter
inspects. -/
structure ZObj where
  oid : String
  meta_type : String
  deriving DecidableEq, Repr

/-- An operation performed on the setup catalog. -/
inductive CatEvent
  | clear
  | reindex (o : ZObj)
  deriving DecidableEq, Repr

/-- The setup catalog: its indexed objects and the trace of operations
performed on it. -/
structure CatState where
  indexed : List ZObj
  trace : List CatEvent
  deriving DecidableEq, Repr

/-- `self.manage_catalogClear()`: drop every indexed object. -/
def manage_catalogClear (s : CatState) : CatState :=
  { indexed := [], trace := s.trace ++ [.clear] }

/-- `self.reindexObject(obj)` (the body of the local `indexObject`):
index the object. -/
def reindexObject (o : ZObj) (s : CatState) : CatState :=
  { indexed := s.indexed ++ [o], trace := s.trace ++ [.reindex o] }

/-- Modelled from the spec: `portal.ZopeFindAndApply(portal,
obj_metatypes=..., search_sub=True, apply_func=f)` visits every object
under the portal — subfolders included, which is what the flattened
list `portalObjs` enumerates, in traversal order — and applies `f` to
exactly those whose meta_type is listed. -/
def ZopeFindAndApply (portalObjs : List ZObj) (obj_metatypes : List String)
    (apply_func : ZObj → CatState → CatState) (s : CatState) : CatState :=
  portalObjs.foldl
    (fun s o => if obj_metatypes.contains o.meta_type then apply_func o s else s) s

/-- The `obj_metatypes` tuple of `clearFindAndRebuild`, in source
order. -/
def setupMetaTypes : List String :=
  ["Container", "ContainerType", "Preservation", "Department",
   "AnalysisCategory", "AnalysisService", "AnalysisSpec", "SampleType",
   "SamplePoint", "Instrument", "Method", "AttachmentType", "Calculation",
   "ARProfile", "LabContact", "LabProduct", "ReferenceManufacturer",
   "ReferenceSupplier", "ReferenceDefinition", "WorksheetTemplate"]

/-- `BikaSetupCatalog.clearFindAndRebuild`: clear the whole catalog,
then `ZopeFindAndApply` over the portal with the setup meta_types and
`indexObject` as the apply function. -/
def clearFindAndRebuild (s : CatState) (portalObjs : List ZObj) : CatState :=
  let indexObject := fun (o : ZObj) (s : CatState) => reindexObject o s
  ZopeFindAndApply portalObjs setupMetaTypes indexObject (manage_catalogClear s)

/-!
## Concrete fixtures

A small concrete framework environment used to evaluate the embedded
code on explicit inputs: two `SampleType` objects sharing the title
`"Water"`, a writable single-valued field, and a fresh instance.
-/

/-- A `SampleType` object titled `Water`. -/
def objWater : Obj :=
  { uid := "7d1f6c62a83a4a1b9bf4f7b2c6f7a001", path := "/plone/bika_setup/st/water",
    portal_type := "SampleType", title := "Water", attrs := [] }

/-- A second, distinct `SampleType` object also titled `Water`. -/
def objWater2 : Obj :=
  { uid := "7d1f6c62a83a4a1b9bf4f7b2c6f7a002", path := "/plone/bika_setup/st/water-2",
    portal_type := "SampleType", title := "Water", attrs := [] }

/-- A concrete framework environment over the two objects; the DateTime
parser accepts exactly `"2017/01/01"`. -/
def envW : Env :=
  { db := [objWater, objWater2],
    parseDT := fun s => if s = "2017/01/01" then Option.some 42 else Option.none,
    b64decode := fun s => String.append "decoded:" s }

/-- A readable, writable, single-valued reference field allowing
`SampleType`. -/
def fW : Field :=
  { name := "SampleTypes", read_perm := true, write_perm := true,
    writeable := true, multiValued := false, allowed_types := ["SampleType"] }

/-- `fW` without read permission. -/
def fNoRead : Field :=
  { fW with read_perm := false }

/-- `fW` without write permission. -/
def fNoWrite : Field :=
  { fW with write_perm := false }

/-- `fW` marked read-only (`field.writeable(instance)` is false). -/
def fReadOnly : Field :=
  { fW with writeable := false }

/-- `fW` with `multiValued := true`. -/
def fMulti : Field :=
  { fW with multiValued := true }

/-- A fresh instance. -/
def iW : Inst :=
  { stored := PyV.other, storedFilename := Option.none }

/-!
## Theorems
-/

/-- **C5.**  For every framework state and every pair of arguments, the
module-level `getCatalog` raises `NameError` before returning: its body
reads the name `self` (first inside `hasattr(self, 'AutoIndex', False)`)
although its only parameters are `instance` and `field`, so it can never
return the catalog its docstring promises. -/
theorem getCatalog_always_raises_NameError :
    ∀ (cenv : CatalogEnv) (portal_type fld : String),
      getCatalog cenv portal_type fld = .error .nameError := by
  intro cenv portal_type fld
  rfl

/-- **C4.**  Field-manager attribute access is permission-checked:
`get` raises `Unauthorized` when the read permission check fails and
otherwise returns the field's value; the base `set` raises
`Unauthorized` when the write permission check fails or the field is not
writeable, and otherwise applies the field's mutator to the value and
returns `True`. -/
theorem at_fieldmanager_access_is_permission_checked :
    ∀ (f : Field) (i : Inst) (v : PyV) (kw : KW),
      (f.read_perm = false →
        ATFieldManager.get f i = .error .unauthorized) ∧
      (f.read_perm = true →
        ATFieldManager.get f i = .ok i.stored) ∧
      (f.write_perm = false →
        ATFieldManager.set f i v kw = (.error .unauthorized, i)) ∧
      (f.write_perm = true → f.writeable = false →
        ATFieldManager.set f i v kw = (.error .unauthorized, i)) ∧
      (f.write_perm = true → f.writeable = true →
        ATFieldManager.set f i v kw =
          (.ok (.bool true),
            { stored := coerceId f.name v, storedFilename := kw.filename })) := by
  intro f i v kw
  refine ⟨fun h => ?_, fun h => ?_, fun h => ?_, fun h h' => ?_, fun h h' => ?_⟩ <;>
    simp [ATFieldManager.get, ATFieldManager._get,
      ATFieldManager.set, ATFieldManager._set, h] <;> simp [h']

/-- Witness for C4: the permission checks evaluated on the concrete
field fixtures. -/
theorem at_fieldmanager_access_witness :
    ATFieldManager.get fNoRead iW = .error .unauthorized ∧
    ATFieldManager.get fW iW = .ok iW.stored ∧
    ATFieldManager.set fNoWrite iW (PyV.str "x") {} = (.error .unauthorized, iW) ∧
    ATFieldManager.set fReadOnly iW (PyV.str "x") {} = (.error .unauthorized, iW) ∧
    ATFieldManager.set fW iW (PyV.str "x") {} =
      (.ok (.bool true),
        { stored := coerceId fW.name (PyV.str "x"),
          storedFilename := (KW.mk Option.none Option.none Option.none).filename }) :=
  ⟨(at_fieldmanager_access_is_permission_checked fNoRead iW (PyV.str "x") {}).1 rfl,
   (at_fieldmanager_access_is_permission_checked fW iW (PyV.str "x") {}).2.1 rfl,
   (at_fieldmanager_access_is_permission_checked fNoWrite iW (PyV.str "x") {}).2.2.1 rfl,
   (at_fieldmanager_access_is_permission_checked fReadOnly iW (PyV.str "x") {}).2.2.2.1 rfl rfl,
   (at_fieldmanager_access_is_permission_checked fW iW (PyV.str "x") {}).2.2.2.2 rfl rfl⟩

/-- **C7.**  For every value whose conversion to a DateTime raises a
syntax error, `DateTimeFieldManager.set` returns `False` and the field
on the instance is unchanged; for every convertible string it stores the
converted DateTime object (not the raw input) — on a writable field not
named `id` (the `id` coercion of `_set` would stringify the value
again). -/
theorem datetime_set_converts_or_returns_false :
    ∀ (env : Env) (f : Field) (i : Inst) (s : String) (kw : KW),
      (env.parseDT s = Option.none →
        DateTimeFieldManager.set env f i (PyV.str s) kw = (.ok (.bool false), i)) ∧
      (∀ (d : Nat), env.parseDT s = Option.some d →
        f.write_perm = true → f.writeable = true → f.name ≠ "id" →
        DateTimeFieldManager.set env f i (PyV.str s) kw =
          (.ok .none, { stored := PyV.dt d, storedFilename := kw.filename })) := by
  intro env f i s kw
  constructor
  · intro h
    simp [DateTimeFieldManager.set, pyDateTime, h]
  · intro d h hw hw' hid
    simp [DateTimeFieldManager.set, pyDateTime, h,
      ATFieldManager._set, hw, hw', coerceId, hid]

/-- Witness for C7: in the concrete environment, `"garbage"` is
unparseable and leaves the instance alone with a `False` return, while
`"2017/01/01"` is stored as the converted DateTime. -/
theorem datetime_set_witness :
    DateTimeFieldManager.set envW fW iW (PyV.str "garbage") {} = (.ok (.bool false), iW) ∧
    DateTimeFieldManager.set envW fW iW (PyV.str "2017/01/01") {} =
      (.ok .none, { stored := PyV.dt 42, storedFilename := Option.none }) :=
  ⟨(datetime_set_converts_or_returns_false envW fW iW "garbage" {}).1 (by decide),
   (datetime_set_converts_or_returns_false envW fW iW "2017/01/01" {}).2 42
     (by decide) rfl rfl (by decide)⟩

/-- **C10.**  On successful mutation `DateTimeFieldManager.set` and
`FileFieldManager.set` return `None`, not `True`: both discard the
`True` result of the inherited `_set`, unlike the base
`ATFieldManager.set`, which returns `True` on success. -/
theorem datetime_and_file_set_return_none_on_success :
    ∀ (env : Env) (f : Field) (i : Inst) (s : String) (d : Nat) (kw : KW),
      f.write_perm = true → f.writeable = true →
      env.parseDT s = Option.some d →
      (DateTimeFieldManager.set env f i (PyV.str s) kw).1 = .ok .none ∧
      (FileFieldManager.set env f i (PyV.str s) kw).1 = .ok .none ∧
      (ATFieldManager.set f i (PyV.str s) kw).1 = .ok (.bool true) := by
  intro env f i s d kw hw hw' hp
  refine ⟨?_, ?_, ?_⟩ <;>
    simp [DateTimeFieldManager.set, FileFieldManager.set, pyDateTime, hp,
      ATFieldManager.set, ATFieldManager._set, hw, hw']

/-- Witness for C10: the three return values on the concrete fixtures. -/
theorem set_return_values_witness :
    (DateTimeFieldManager.set envW fW iW (PyV.str "2017/01/01") {}).1 = .ok .none ∧
    (FileFieldManager.set envW fW iW (PyV.str "2017/01/01") {}).1 = .ok .none ∧
    (ATFieldManager.set fW iW (PyV.str "2017/01/01") {}).1 = .ok (.bool true) :=
  datetime_and_file_set_return_none_on_success envW fW iW "2017/01/01" 42 {}
    rfl rfl (by decide)

/-- Counterexample for C8: with no `filename` keyword, an `id` keyword
that is present but empty, and a `title` keyword `"report"`, the stored
filename is `"report"`, not the present `id` — `kw.get("id") or
kw.get("title")` skips a falsy `id`. -/
theorem file_set_present_empty_id_counterexample :
    (FileFieldManager.set envW fW iW (PyV.str "Zm9v")
        { filename := Option.none, id := Option.some "", title := Option.some "report" }
      ).2.storedFilename = Option.some "report" ∧
    Option.some "report" ≠ (Option.some "" : Option String) := by
  constructor
  · rfl
  · decide

/-- **C8 (amended).**  `FileFieldManager.set` always base64-decodes the
stringified input value before storing it, and when no `filename`
keyword is supplied it defaults the filename to the `id` keyword if that
is present and non-empty (truthy), otherwise to the `title` keyword. -/
theorem file_set_decodes_and_defaults_filename :
    ∀ (env : Env) (f : Field) (i : Inst) (v : PyV) (kw : KW),
      f.write_perm = true → f.writeable = true → f.name ≠ "id" →
      ((FileFieldManager.set env f i v kw).2.stored =
        PyV.str (env.b64decode (pyStr v))) ∧
      (kw.filename = Option.none →
        (FileFieldManager.set env f i v kw).2.storedFilename = pyOr kw.id kw.title) ∧
      (∀ (s : String), kw.filename = Option.none → kw.id = Option.some s → s ≠ "" →
        (FileFieldManager.set env f i v kw).2.storedFilename = Option.some s) ∧
      (kw.filename = Option.none → kw.id = Option.none →
        (FileFieldManager.set env f i v kw).2.storedFilename = kw.title) ∧
      (kw.filename = Option.none → kw.id = Option.some "" →
        (FileFieldManager.set env f i v kw).2.storedFilename = kw.title) := by
  intro env f i v kw hw hw' hid
  refine ⟨?_, fun h => ?_, fun s h h' h'' => ?_, fun h h' => ?_, fun h h' => ?_⟩
  · simp [FileFieldManager.set, ATFieldManager._set, hw, hw', coerceId, hid]
  · simp [FileFieldManager.set, ATFieldManager._set, hw, hw', coerceId, hid, h]
  · simp [FileFieldManager.set, ATFieldManager._set, hw, hw', coerceId, hid,
      h, h', pyOr, h'']
  · simp [FileFieldManager.set, ATFieldManager._set, hw, hw', coerceId, hid,
      h, h', pyOr]
  · simp [FileFieldManager.set, ATFieldManager._set, hw, hw', coerceId, hid,
      h, h', pyOr]

/-- Witness for C8: decoded payload stored, and the three filename
defaulting behaviors on concrete keywords. -/
theorem file_set_witness :
    ((FileFieldManager.set envW fW iW (PyV.str "Zm9v") {}).2.stored =
      PyV.str (envW.b64decode (pyStr (PyV.str "Zm9v")))) ∧
    (FileFieldManager.set envW fW iW (PyV.str "Zm9v")
        { filename := Option.none, id := Option.some "att-1", title := Option.some "report" }
      ).2.storedFilename = Option.some "att-1" ∧
    (FileFieldManager.set envW fW iW (PyV.str "Zm9v")
        { filename := Option.none, id := Option.none, title := Option.some "report" }
      ).2.storedFilename = Option.some "report" :=
  ⟨(file_set_decodes_and_defaults_filename envW fW iW (PyV.str "Zm9v") {}
      rfl rfl (by decide)).1,
   (file_set_decodes_and_defaults_filename envW fW iW (PyV.str "Zm9v")
      { filename := Option.none, id := Option.some "att-1", title := Option.some "report" }
      rfl rfl (by decide)).2.2.1 "att-1" rfl rfl (by decide),
   by
    have h := (file_set_decodes_and_defaults_filename envW fW iW (PyV.str "Zm9v")
      { filename := Option.none, id := Option.none, title := Option.some "report" }
      rfl rfl (by decide)).2.2.2.1 rfl rfl
    exact h⟩

/-- Accumulating with `++` over a list is flat-mapping: relates the
`ref.append`/`ref.extend` loop of the source to the flattened list of
per-item resolutions. -/
theorem foldl_append_eq_flatMap {α β : Type} (g : α → List β) :
    ∀ (l : List α) (acc : List β),
      l.foldl (fun a it => a ++ g it) acc = acc ++ l.flatMap g := by
  intro l
  induction l with
  | nil => intro acc; simp
  | cons x t ih => intro acc; simp [ih]

/-- Counterexample for C1: a plain top-level string that is neither a
UID nor a path does *not* resolve to the objects whose title matches
it — the catalog holds two `SampleType` objects titled `Water`, yet the
value `"Water"` resolves to no references and `set` stores the empty
list. -/
theorem reference_set_toplevel_string_counterexample :
    ReferenceFieldManager.resolve envW ["SampleType"] (Value.str "Water") =
      RefVal.lst [] ∧
    api.search envW ["SampleType"] [("title", "Water")] = [objWater, objWater2] ∧
    ReferenceFieldManager.set envW fW iW (Value.str "Water") {} =
      (.ok (.bool true),
        { stored := PyV.reflist [], storedFilename := Option.none }) := by
  exact ⟨rfl, rfl, rfl⟩

/-- **C1 (amended).**  `ReferenceFieldManager.set` accepts a UID, a
content object, a physical path, a dictionary (treated as a catalog
query) and lists thereof, and normalizes the value into object
references stored on the field; a plain string is treated as a title
lookup against the allowed types only when it occurs as an item of a
list value — a top-level plain string that is not a UID or path
resolves to no references (the empty list). -/
theorem reference_set_resolution_characterized :
    ∀ (env : Env) (allowed : List String),
      (∀ (u : String), ReferenceFieldManager.resolve env allowed (Value.uid u) =
        RefVal.lst [api.get_object_by_uid env u]) ∧
      (∀ (o : Obj), ReferenceFieldManager.resolve env allowed (Value.obj o) =
        RefVal.lst [Option.some o]) ∧
      (∀ (q : List (String × String)),
        ReferenceFieldManager.resolve env allowed (Value.dict q) =
          RefVal.lst ((api.search env allowed q).map Option.some)) ∧
      (∀ (p : String), ReferenceFieldManager.resolve env allowed (Value.path p) =
        RefVal.single (api.get_object_by_path env p)) ∧
      (∀ (items : List Item),
        ReferenceFieldManager.resolve env allowed (Value.list items) =
          RefVal.lst (items.flatMap (ReferenceFieldManager.resolveItem env allowed))) ∧
      (∀ (s : String), ReferenceFieldManager.resolveItem env allowed (Item.str s) =
        (api.search env allowed [("title", s)]).map Option.some) ∧
      (∀ (s : String),
        ReferenceFieldManager.resolve env allowed (Value.str s) = RefVal.lst []) ∧
      (∀ (f : Field) (i : Inst) (v : Value) (kw : KW),
        f.write_perm = true → f.writeable = true → f.name ≠ "id" →
        f.multiValued = true → f.allowed_types = allowed →
        ReferenceFieldManager.set env f i v kw =
          (.ok (.bool true),
            { stored := (ReferenceFieldManager.resolve env allowed v).toPyV,
              storedFilename := kw.filename })) := by
  intro env allowed
  refine ⟨fun u => rfl, fun o => rfl, fun q => rfl, fun p => rfl,
    fun items => ?_, fun s => rfl, fun s => rfl,
    fun f i v kw hw hw' hid hm ha => ?_⟩
  · simp [ReferenceFieldManager.resolve, foldl_append_eq_flatMap]
  · subst ha
    simp [ReferenceFieldManager.set, hm, ATFieldManager._set, hw, hw',
      coerceId, hid]

/-- Witness for C1: a list value mixing a title string resolves to the
two `Water` objects and a multi-valued `set` stores them. -/
theorem reference_set_resolution_witness :
    ReferenceFieldManager.set envW fMulti iW (Value.list [Item.str "Water"]) {} =
      (.ok (.bool true),
        { stored := (ReferenceFieldManager.resolve envW ["SampleType"]
            (Value.list [Item.str "Water"])).toPyV,
          storedFilename := Option.none }) :=
  (reference_set_resolution_characterized envW ["SampleType"]).2.2.2.2.2.2.2
    fMulti iW (Value.list [Item.str "Water"]) {} rfl rfl (by decide) rfl rfl

/-- **C2.**  For every single-valued reference field: an input resolving
to a list of more than one object reference makes
`ReferenceFieldManager.set` raise `ValueError` with the instance
untouched (the raise precedes the call to `_set`); an input resolving
to a list of at most one reference never raises `ValueError`; and an
input resolving to a single object via the physical-path branch raises
`TypeError` (from `len` on a non-sequence), not `ValueError`. -/
theorem reference_set_single_valued_cardinality :
    ∀ (env : Env) (f : Field) (i : Inst) (v : Value) (kw : KW),
      f.multiValued = false →
      (∀ (l : List (Option Obj)),
        ReferenceFieldManager.resolve env f.allowed_types v = RefVal.lst l →
        1 < l.length →
        ReferenceFieldManager.set env f i v kw = (.error .valueError, i)) ∧
      (∀ (l : List (Option Obj)),
        ReferenceFieldManager.resolve env f.allowed_types v = RefVal.lst l →
        l.length ≤ 1 →
        (ReferenceFieldManager.set env f i v kw).1 ≠ .error .valueError) ∧
      (∀ (r : Option Obj),
        ReferenceFieldManager.resolve env f.allowed_types v = RefVal.single r →
        ReferenceFieldManager.set env f i v kw = (.error .typeError, i)) := by
  intro env f i v kw hm
  refine ⟨fun l hres hlen => ?_, fun l hres hlen => ?_, fun r hres => ?_⟩
  · simp [ReferenceFieldManager.set, hm, hres, refLen, hlen]
  · have hlen' : ¬ (1 < l.length) := by omega
    simp [ReferenceFieldManager.set, hm, hres, refLen, hlen']
    unfold ATFieldManager._set
    rcases hw : f.write_perm <;> rcases hw' : f.writeable <;> simp
  · simp [ReferenceFieldManager.set, hm, hres, refLen]

/-- Witness for C2: a dictionary query matching the two `Water`
objects on the single-valued field raises `ValueError` and leaves the
instance unchanged; a UID value (one reference) does not raise
`ValueError`; a path value hits the `TypeError` of `len`. -/
theorem reference_set_cardinality_witness :
    ReferenceFieldManager.set envW fW iW (Value.dict [("title", "Water")]) {} =
      (.error .valueError, iW) ∧
    (ReferenceFieldManager.set envW fW iW
        (Value.uid "7d1f6c62a83a4a1b9bf4f7b2c6f7a001") {}).1 ≠
      .error .valueError ∧
    ReferenceFieldManager.set envW fW iW
        (Value.path "/plone/bika_setup/st/water") {} =
      (.error .typeError, iW) :=
  ⟨(reference_set_single_valued_cardinality envW fW iW
      (Value.dict [("title", "Water")]) {} rfl).1
      [Option.some objWater, Option.some objWater2] rfl (by decide),
   (reference_set_single_valued_cardinality envW fW iW
      (Value.uid "7d1f6c62a83a4a1b9bf4f7b2c6f7a001") {} rfl).2.1
      [Option.some objWater] rfl (by decide),
   (reference_set_single_valued_cardinality envW fW iW
      (Value.path "/plone/bika_setup/st/water") {} rfl).2.2
      (Option.some objWater) rfl⟩

/-- Counterexample for C3: a value matching none of the recognized
shapes (here a non-string, non-dict, non-list, non-object, non-path
value) is accepted by *no* strategy — not exactly one — and resolves to
the empty list. -/
theorem reference_strategies_none_counterexample :
    strategiesAccepting Value.other = [] ∧
    ReferenceFieldManager.resolve envW ["SampleType"] Value.other =
      RefVal.lst [] := by
  exact ⟨rfl, rfl⟩

/-- **C3 (amended).**  `ReferenceFieldManager.set` applies its
resolution strategies in the order: UID lookup, direct object,
dictionary-as-catalog-query, list of mixed items (each item tried as
UID, object, path, dict query, then title string, preserving list
order), then physical path — a fallback chain in which at most one
strategy determines the result for any given value, exactly one for
every value matching a recognized shape, while a value matching none
resolves to the empty reference list. -/
theorem reference_strategies_mutually_exclusive :
    ∀ (env : Env) (allowed : List String) (v : Value),
      (strategiesAccepting v).length ≤ 1 ∧
      (∀ (s : Strategy), accepts s v = true →
        strategiesAccepting v = [s] ∧
        ReferenceFieldManager.resolve env allowed v =
          strategyResult env allowed s v) ∧
      ((∀ (s : Strategy), accepts s v = false) →
        ReferenceFieldManager.resolve env allowed v = RefVal.lst []) ∧
      (∀ (items : List Item),
        ReferenceFieldManager.resolve env allowed (Value.list items) =
          RefVal.lst (items.flatMap (ReferenceFieldManager.resolveItem env allowed))) := by
  intro env allowed v
  refine ⟨?_, fun s hs => ⟨?_, ?_⟩, fun h => ?_, fun items => ?_⟩
  · cases v <;> simp [strategiesAccepting, allStrategies, accepts]
  · cases v <;> cases s <;> simp_all [accepts] <;> rfl
  · cases v <;> cases s <;>
      simp_all [accepts, ReferenceFieldManager.resolve, strategyResult,
        foldl_append_eq_flatMap]
  · cases v <;>
      first
      | rfl
      | (exfalso
         have h1 := h Strategy.uid
         have h2 := h Strategy.obj
         have h3 := h Strategy.dictQ
         have h4 := h Strategy.listV
         have h5 := h Strategy.path
         simp [accepts] at h1 h2 h3 h4 h5)
  · simp [ReferenceFieldManager.resolve, foldl_append_eq_flatMap]

/-- Witness for C3: on a UID value the UID strategy is the one accepting
strategy and alone determines the result. -/
theorem reference_strategies_witness :
    strategiesAccepting (Value.uid "7d1f6c62a83a4a1b9bf4f7b2c6f7a001") =
      [Strategy.uid] ∧
    ReferenceFieldManager.resolve envW ["SampleType"]
        (Value.uid "7d1f6c62a83a4a1b9bf4f7b2c6f7a001") =
      strategyResult envW ["SampleType"] Strategy.uid
        (Value.uid "7d1f6c62a83a4a1b9bf4f7b2c6f7a001") :=
  (reference_strategies_mutually_exclusive envW ["SampleType"]
    (Value.uid "7d1f6c62a83a4a1b9bf4f7b2c6f7a001")).2.1 Strategy.uid rfl

/-- **C9.**  A value matching none of the recognized shapes (a plain
top-level string that is neither UID nor path, or any other
unrecognized value) makes `ReferenceFieldManager.set` raise no error
and store the empty list, silently clearing the reference field (on a
writable field; the cardinality check passes since `len([]) = 0`). -/
theorem reference_set_unmatched_value_stores_empty :
    ∀ (env : Env) (f : Field) (i : Inst) (kw : KW),
      f.write_perm = true → f.writeable = true → f.name ≠ "id" →
      (∀ (s : String),
        ReferenceFieldManager.set env f i (Value.str s) kw =
          (.ok (.bool true),
            { stored := PyV.reflist [], storedFilename := kw.filename })) ∧
      (ReferenceFieldManager.set env f i Value.other kw =
        (.ok (.bool true),
          { stored := PyV.reflist [], storedFilename := kw.filename })) := by
  intro env f i kw hw hw' hid
  constructor
  · intro s
    rcases hm : f.multiValued <;>
      simp [ReferenceFieldManager.set, hm, ReferenceFieldManager.resolve,
        refLen, RefVal.toPyV, ATFieldManager._set, hw, hw', coerceId, hid]
  · rcases hm : f.multiValued <;>
      simp [ReferenceFieldManager.set, hm, ReferenceFieldManager.resolve,
        refLen, RefVal.toPyV, ATFieldManager._set, hw, hw', coerceId, hid]

/-- Witness for C9: the concrete single-valued field silently stores the
empty list for the unmatched string `"Water"` even though objects with
that title exist. -/
theorem reference_set_unmatched_value_witness :
    ReferenceFieldManager.set envW fW iW (Value.str "Water") {} =
      (.ok (.bool true),
        { stored := PyV.reflist [], storedFilename := Option.none }) ∧
    ReferenceFieldManager.set envW fW iW Value.other {} =
      (.ok (.bool true),
        { stored := PyV.reflist [], storedFilename := Option.none }) :=
  ⟨(reference_set_unmatched_value_stores_empty envW fW iW {} rfl rfl
      (by decide)).1 "Water",
   (reference_set_unmatched_value_stores_empty envW fW iW {} rfl rfl
      (by decide)).2⟩

/-- `ZopeFindAndApply` with `reindexObject` as the apply function
appends exactly the matching objects to the index and records one
`reindex` event per matching object, in traversal order. -/
theorem zopeFindAndApply_reindex_characterized :
    ∀ (portal : List ZObj) (mts : List String) (s : CatState),
      ZopeFindAndApply portal mts (fun o s => reindexObject o s) s =
        { indexed := s.indexed ++ portal.filter (fun o => mts.contains o.meta_type),
          trace := s.trace ++
            (portal.filter (fun o => mts.contains o.meta_type)).map CatEvent.reindex } := by
  intro portal mts
  induction portal with
  | nil => intro s; simp [ZopeFindAndApply]
  | cons o t ih =>
    intro s
    by_cases hmem : o.meta_type ∈ mts
    · have hstep : ZopeFindAndApply (o :: t) mts (fun o s => reindexObject o s) s =
          ZopeFindAndApply t mts (fun o s => reindexObject o s) (reindexObject o s) := by
        simp [ZopeFindAndApply, hmem]
      rw [hstep, ih, List.filter_cons]
      simp [hmem, reindexObject, List.append_assoc]
    · have hstep : ZopeFindAndApply (o :: t) mts (fun o s => reindexObject o s) s =
          ZopeFindAndApply t mts (fun o s => reindexObject o s) s := by
        simp [ZopeFindAndApply, hmem]
      rw [hstep, ih, List.filter_cons]
      simp [hmem]

/-- Counterexample for C6: the `obj_metatypes` tuple of
`clearFindAndRebuild` lists 20 setup types, not 19 as the claim
counts. -/
theorem setup_metatypes_count_counterexample :
    setupMetaTypes.length = 20 ∧ setupMetaTypes.length ≠ 19 := by
  exact ⟨rfl, by decide⟩

/-- **C6 (amended).**  `BikaSetupCatalog.clearFindAndRebuild` first
clears the whole catalog and then reindexes exactly the objects found
under the portal (subfolders included) whose meta_type is one of the 20
listed setup types; on the operation trace the clear event precedes
every reindex event. -/
theorem clearFindAndRebuild_clears_then_reindexes :
    ∀ (s : CatState) (portal : List ZObj),
      (clearFindAndRebuild s portal).indexed =
        portal.filter (fun o => setupMetaTypes.contains o.meta_type) ∧
      (clearFindAndRebuild s portal).trace =
        s.trace ++ CatEvent.clear ::
          (portal.filter (fun o => setupMetaTypes.contains o.meta_type)).map
            CatEvent.reindex ∧
      setupMetaTypes.length = 20 := by
  intro s portal
  have h := zopeFindAndApply_reindex_characterized portal setupMetaTypes
    (manage_catalogClear s)
  refine ⟨?_, ?_, rfl⟩
  · show (ZopeFindAndApply portal setupMetaTypes (fun o s => reindexObject o s)
      (manage_catalogClear s)).indexed = _
    rw [h]
    simp [manage_catalogClear]
  · show (ZopeFindAndApply portal setupMetaTypes (fun o s => reindexObject o s)
      (manage_catalogClear s)).trace = _
    rw [h]
    simp [manage_catalogClear]

end Bika
